import Mathlib

/-!
Verification of the egui_vulkano painter (`src/lib.rs`).

The development shallowly embeds the painter's own logic: the vertex
conversion (`From<&epaint::Vertex> for Vertex`), the texture-update step
(`Painter::update_set` together with `create_font_texture`), and the
per-frame mesh packing and scissored draw loop (`Painter::draw`).

Modelling conventions:
* `f32` scalars (positions, UVs, clip-rect coordinates, normalized colors)
  are modelled as exact rationals `ℚ`; IEEE rounding is abstracted away.
* `u8` values are `Fin 256`, `u32`/`u64` values are `Nat` (they are only
  compared for equality or used as lengths, so no wrap-around can occur).
* The vulkano GPU calls are external. Each fallible call is modelled by a
  boolean in a `GpuEnv` describing whether that call succeeds, and every
  operation records a `GpuOp` in a trace so that claims about "no GPU
  allocation happens" can be stated.  Opaque resource handles held by the
  `Painter` (device, queue, pipeline, subpass, sampler) carry no state the
  painter logic reads, so they are omitted from the state record.
* `&mut self` methods return the updated `Painter` alongside the `Result`,
  so that partially mutated state on the error path is observable, exactly
  as in the Rust source.
* `egui_ctx.texture()` and `egui_ctx.tessellate(shapes)` are external
  library calls; the embedding takes their outputs (the `Texture` and the
  `List ClippedMesh`) as inputs.
-/

namespace EguiVulkano

/-- A 2D point (`egui::Pos2`), coordinates modelled as rationals. -/
structure Pos2 where
  x : ℚ
  y : ℚ
deriving DecidableEq

/-- A packed 8-bit RGBA color (`egui::Color32`). -/
structure Color32 where
  r : Fin 256
  g : Fin 256
  b : Fin 256
  a : Fin 256
deriving DecidableEq

/-- An external GUI vertex (`epaint::Vertex`): position, UV, packed color. -/
structure EpaintVertex where
  pos : Pos2
  uv : Pos2
  color : Color32
deriving DecidableEq

/-- The backend's vertex layout (`Vertex` in `src/lib.rs`): position, UV and
four normalized color channels. -/
structure Vertex where
  pos : ℚ × ℚ
  uv : ℚ × ℚ
  color : ℚ × ℚ × ℚ × ℚ
deriving DecidableEq

/-- The closure `convert` inside the `From` impl: each 8-bit channel is
divided by 255. -/
def convertColor (c : Color32) : ℚ × ℚ × ℚ × ℚ :=
  ((c.r.val : ℚ) / 255, (c.g.val : ℚ) / 255, (c.b.val : ℚ) / 255, (c.a.val : ℚ) / 255)

/-- `From<&epaint::Vertex> for Vertex` (`src/lib.rs` lines 37-56): position
and UV are copied through, the color is normalized by `convertColor`. -/
def vertexFromEpaint (v : EpaintVertex) : Vertex :=
  { pos := (v.pos.x, v.pos.y)
    uv := (v.uv.x, v.uv.y)
    color := convertColor v.color }

/-- An axis-aligned clip rectangle (`egui::Rect`). -/
structure Rect where
  min : Pos2
  max : Pos2
deriving DecidableEq

/-- `Rect::width`. -/
def Rect.width (r : Rect) : ℚ := r.max.x - r.min.x

/-- `Rect::height`. -/
def Rect.height (r : Rect) : ℚ := r.max.y - r.min.y

/-- An `epaint::Mesh`: vertices plus mesh-local `u32` indices. -/
structure Mesh where
  vertices : List EpaintVertex
  indices : List Nat
deriving DecidableEq

/-- An `epaint::ClippedMesh`, i.e. the pair `(clip, mesh)`. -/
structure ClippedMesh where
  clip : Rect
  mesh : Mesh
deriving DecidableEq

/-- The egui font atlas (`epaint::Texture`): single-channel pixels plus a
version counter. -/
structure Texture where
  version : Nat
  width : Nat
  height : Nat
  pixels : List (Fin 256)
deriving DecidableEq

/-- The GPU image built by `create_font_texture` (an `ImmutableImage`):
dimensions plus the uploaded 4-channel byte data. -/
structure FontImage where
  width : Nat
  height : Nat
  data : List (Fin 256)
deriving DecidableEq

/-- An `ImageView` over the font image. -/
structure ImageView where
  image : FontImage
deriving DecidableEq

/-- The persistent descriptor set binding the sampled font image. -/
structure DescriptorSet where
  view : ImageView
deriving DecidableEq

/-- `CreateTextureError` (`src/lib.rs` lines 319-325). -/
inductive CreateTextureError
  | createImageFailed
  | flushFailed
deriving DecidableEq

/-- `UpdateSetError` (`src/lib.rs` lines 75-85). -/
inductive UpdateSetError
  | createTextureFailed (e : CreateTextureError)
  | createImageViewFailed
  | incorrectDefinition
  | buildFailed
deriving DecidableEq

/-- `DrawError` (`src/lib.rs` lines 87-97). -/
inductive DrawError
  | updateSetFailed (e : UpdateSetError)
  | nextSubpassFailed
  | createBuffersFailed
  | drawIndexedFailed
deriving DecidableEq

/-- Outcomes of the external graphics-API calls this crate performs.  Each
boolean says whether the corresponding vulkano call succeeds. -/
structure GpuEnv where
  imageOk : Bool
  flushOk : Bool
  viewOk : Bool
  addImageOk : Bool
  buildOk : Bool
  subpassOk : Bool
  buffersOk : Bool
  drawOk : Bool
deriving DecidableEq

/-- The environment in which every graphics-API call succeeds. -/
def GpuEnv.allOk : GpuEnv := ⟨true, true, true, true, true, true, true, true⟩

/-- Observable GPU-side operations, recorded as a trace. -/
inductive GpuOp
  | allocImage (width height : Nat) (data : List (Fin 256))
  | flushUpload
  | buildImageView
  | buildDescriptorSet
  | allocVertexBuffer (len : Nat)
  | allocIndexBuffer (len : Nat)
deriving DecidableEq

/-- The mutable painter state (`Painter` in `src/lib.rs` lines 102-110).
The opaque resource handles (device, queue, pipeline, subpass, sampler) are
set at construction and never change, so only the two mutable fields are
modelled. -/
structure Painter where
  texture_version : Nat
  set : Option DescriptorSet
deriving DecidableEq

/-- `Painter::new` (`src/lib.rs` lines 115-131): caches texture version `0`
with no descriptor set.  Pipeline and sampler creation are external calls
whose results are the omitted opaque handles. -/
def Painter.new : Painter := { texture_version := 0, set := none }

/-- The 4-channel expansion
`texture.pixels.iter().flat_map(|&r| vec![r, r, r, r])`
(`src/lib.rs` lines 338-342). -/
def imageData (pixels : List (Fin 256)) : List (Fin 256) :=
  pixels.flatMap fun r => [r, r, r, r]

/-- `create_font_texture` (`src/lib.rs` lines 328-354): builds the expanded
image data, allocates a width×height image from it, and flushes the upload.
Either step can fail at the graphics-API layer. -/
def create_font_texture (env : GpuEnv) (texture : Texture) :
    Except CreateTextureError FontImage × List GpuOp :=
  let data := imageData texture.pixels
  if env.imageOk then
    if env.flushOk then
      (Except.ok ⟨texture.width, texture.height, data⟩,
        [GpuOp.allocImage texture.width texture.height data, GpuOp.flushUpload])
    else
      (Except.error CreateTextureError.flushFailed,
        [GpuOp.allocImage texture.width texture.height data])
  else
    (Except.error CreateTextureError.createImageFailed, [])

instance {ε α : Type} [DecidableEq ε] [DecidableEq α] : DecidableEq (Except ε α) :=
  fun a b =>
    match a, b with
    | Except.error e, Except.error f =>
      if h : e = f then isTrue (by rw [h]) else isFalse (by simp [h])
    | Except.error _, Except.ok _ => isFalse (by simp)
    | Except.ok _, Except.error _ => isFalse (by simp)
    | Except.ok x, Except.ok y =>
      if h : x = y then isTrue (by rw [h]) else isFalse (by simp [h])

/-- Result of one `update_set` call: the returned `Result`, the painter
state after the call, and the trace of GPU operations performed. -/
structure UpdateSetOut where
  result : Except UpdateSetError Unit
  painter : Painter
  ops : List GpuOp
deriving DecidableEq

/-- `Painter::update_set` (`src/lib.rs` lines 133-151).  If the atlas
version equals the cached version it returns `Ok` at once.  Otherwise it
first overwrites `self.texture_version` (line 138), then runs the fallible
steps: `create_font_texture`, `ImageView::new`, `add_sampled_image`, and
`build`; only if all succeed is `self.set` replaced. -/
def update_set (env : GpuEnv) (p : Painter) (texture : Texture) : UpdateSetOut :=
  if texture.version = p.texture_version then
    ⟨Except.ok (), p, []⟩
  else
    let p1 : Painter := { p with texture_version := texture.version }
    match create_font_texture env texture with
    | (Except.error e, ops) =>
      ⟨Except.error (UpdateSetError.createTextureFailed e), p1, ops⟩
    | (Except.ok image, ops) =>
      if env.viewOk then
        if env.addImageOk then
          if env.buildOk then
            ⟨Except.ok (), { p1 with set := some ⟨⟨image⟩⟩ },
              ops ++ [GpuOp.buildImageView, GpuOp.buildDescriptorSet]⟩
          else
            ⟨Except.error UpdateSetError.buildFailed, p1, ops ++ [GpuOp.buildImageView]⟩
        else
          ⟨Except.error UpdateSetError.incorrectDefinition, p1, ops ++ [GpuOp.buildImageView]⟩
      else
        ⟨Except.error UpdateSetError.createImageViewFailed, p1, ops⟩

/-- Modelled from the spec: the crate's public `update_textures` step and
its `UpdateTexturesResult` return type are referenced by the example under
`examples/main.rs` but are absent from `src/lib.rs` (only the private
`update_set` exists there).  The spec describes the step as "an
`updateTextures` step (returns whether GPU-side waiting is required before
reuse)", the signal being "wait if texture changed this frame". -/
inductive UpdateTexturesResult
  | noChange
  | changed
deriving DecidableEq

/-- Modelled from the spec: the public texture-update step.  It performs
the texture-update work of `update_set` and, on success, reports `changed`
exactly when the atlas version differed from the cached version this
frame (so the caller knows GPU-side waiting is required before reuse). -/
def update_textures (env : GpuEnv) (p : Painter) (texture : Texture) :
    Except UpdateSetError UpdateTexturesResult × Painter × List GpuOp :=
  let u := update_set env p texture
  match u.result with
  | Except.error e => (Except.error e, u.painter, u.ops)
  | Except.ok _ =>
    (Except.ok
      (if texture.version = p.texture_version then UpdateTexturesResult.noChange
       else UpdateTexturesResult.changed),
      u.painter, u.ops)

/-- The skip condition of the packing loop (`src/lib.rs` line 185):
`mesh.vertices.len() == 0 || mesh.indices.len() == 0`. -/
def isEmptyMesh (cm : ClippedMesh) : Prop :=
  cm.mesh.vertices.length = 0 ∨ cm.mesh.indices.length = 0

instance (cm : ClippedMesh) : Decidable (isEmptyMesh cm) := by
  unfold isEmptyMesh; infer_instance

/-- The meshes the packing loop retains: those that are not skipped. -/
def retained (cms : List ClippedMesh) : List ClippedMesh :=
  cms.filter fun cm => decide (¬ isEmptyMesh cm)

/-- The four accumulators of the packing loop (`verts`, `indices`, `clips`,
`offsets`, `src/lib.rs` lines 169-172). -/
structure PackState where
  verts : List Vertex
  indices : List Nat
  clips : List Rect
  offsets : List (Nat × Nat)
deriving DecidableEq

/-- The empty accumulators the loop starts from. -/
def packInit : PackState := ⟨[], [], [], []⟩

/-- One iteration of the packing loop (`src/lib.rs` lines 174-200): skip an
empty mesh entirely; otherwise record the current offsets, append the
converted vertices and the verbatim indices, and record the clip rect. -/
def packStep (s : PackState) (cm : ClippedMesh) : PackState :=
  if isEmptyMesh cm then s
  else
    { verts := s.verts ++ cm.mesh.vertices.map vertexFromEpaint
      indices := s.indices ++ cm.mesh.indices
      clips := s.clips ++ [cm.clip]
      offsets := s.offsets ++ [(s.verts.length, s.indices.length)] }

/-- The whole packing phase: fold the loop over the clipped meshes, then
push the final `(verts.len(), indices.len())` pair (`src/lib.rs` line 201). -/
def packMeshes (cms : List ClippedMesh) : PackState :=
  let s := cms.foldl packStep packInit
  { s with offsets := s.offsets ++ [(s.verts.length, s.indices.length)] }

/-- Truncation toward zero, the rounding Rust's float-to-integer `as` uses. -/
def truncQ (q : ℚ) : Int := if 0 ≤ q then ⌊q⌋ else ⌈q⌉

/-- Rust's saturating `as i32` cast on a float value. -/
def castToI32 (q : ℚ) : Int := max (-(2 ^ 31)) (min (2 ^ 31 - 1) (truncQ q))

/-- Rust's saturating `as u32` cast on a float value. -/
def castToU32 (q : ℚ) : Nat := (max 0 (min (2 ^ 32 - 1) (truncQ q))).toNat

/-- A vulkano `Scissor`: integer origin plus unsigned dimensions. -/
structure Scissor where
  originX : Int
  originY : Int
  width : Nat
  height : Nat
deriving DecidableEq

/-- The scissor built for one clip rect (`src/lib.rs` lines 214-219):
origin from the rect's `min` corner, dimensions from its width and height,
all cast to pixel-space integers. -/
def scissorOf (clip : Rect) : Scissor :=
  ⟨castToI32 clip.min.x, castToI32 clip.min.y,
    castToU32 clip.width, castToU32 clip.height⟩

/-- One recorded `draw_indexed` call: its scissor and the half-open vertex
and index ranges sliced from the frame buffers. -/
structure DrawCall where
  scissor : Scissor
  vertexRange : Nat × Nat
  indexRange : Nat × Nat
deriving DecidableEq

/-- Placeholder rect used only for the (never reached) out-of-bounds case
of list indexing in the draw loop. -/
def defaultRect : Rect := ⟨⟨0, 0⟩, ⟨0, 0⟩⟩

/-- Placeholder draw call for stating indexed properties with `getD`. -/
def defaultDrawCall : DrawCall := ⟨⟨0, 0, 0, 0⟩, (0, 0), (0, 0)⟩

/-- The draw loop of `Painter::draw` (`src/lib.rs` lines 211-241): for the
`idx`-th retained clip, the scissor comes from that clip and the buffer
slices run from `offsets[idx]` to `offsets[idx + 1]` (component 0 for the
vertex buffer, component 1 for the index buffer). -/
def drawCallsOf (s : PackState) : List DrawCall :=
  (List.range s.clips.length).map fun idx =>
    let offset := s.offsets.getD idx (0, 0)
    let e := s.offsets.getD (idx + 1) (0, 0)
    ⟨scissorOf (s.clips.getD idx defaultRect), (offset.1, e.1), (offset.2, e.2)⟩

/-- `Painter::create_buffers` (`src/lib.rs` lines 246-271): allocate one
vertex and one index buffer from the packed data. -/
def create_buffers (env : GpuEnv) (triangles : List Vertex × List Nat) :
    Except DrawError (List Vertex × List Nat) × List GpuOp :=
  if env.buffersOk then
    (Except.ok triangles,
      [GpuOp.allocVertexBuffer triangles.1.length, GpuOp.allocIndexBuffer triangles.2.length])
  else
    (Except.error DrawError.createBuffersFailed, [])

/-- How one `Painter::draw` call ends: normal return, error return, or the
panic of the unchecked `self.set.as_ref().unwrap()` on line 238. -/
inductive DrawOutcome
  | success
  | error (e : DrawError)
  | panicked
deriving DecidableEq

/-- Result of one `Painter::draw` call: outcome, painter state after the
call, the GPU buffers allocated for the frame (if any), and the sequence of
issued draw calls. -/
structure DrawOut where
  outcome : DrawOutcome
  painter : Painter
  buffers : Option (List Vertex × List Nat)
  draws : List DrawCall
deriving DecidableEq

/-- `Painter::draw` (`src/lib.rs` lines 154-243).  It first runs
`update_set`, then advances the subpass, packs the tessellated meshes, and
returns early with `Ok` if nothing was retained; otherwise it allocates the
frame buffers and issues one scissored indexed draw per retained mesh,
dereferencing the cached descriptor set with `unwrap`. -/
def draw (env : GpuEnv) (p : Painter) (texture : Texture)
    (clipped_meshes : List ClippedMesh) : DrawOut :=
  let u := update_set env p texture
  match u.result with
  | Except.error e =>
    ⟨DrawOutcome.error (DrawError.updateSetFailed e), u.painter, none, []⟩
  | Except.ok _ =>
    if env.subpassOk then
      let s := packMeshes clipped_meshes
      if s.clips.length = 0 then
        ⟨DrawOutcome.success, u.painter, none, []⟩
      else
        match create_buffers env (s.verts, s.indices) with
        | (Except.error _, _) =>
          ⟨DrawOutcome.error DrawError.createBuffersFailed, u.painter, none, []⟩
        | (Except.ok bufs, _) =>
          match u.painter.set with
          | none => ⟨DrawOutcome.panicked, u.painter, some bufs, []⟩
          | some _ =>
            if env.drawOk then
              ⟨DrawOutcome.success, u.painter, some bufs, drawCallsOf s⟩
            else
              ⟨DrawOutcome.error DrawError.drawIndexedFailed, u.painter, some bufs, []⟩
    else
      ⟨DrawOutcome.error DrawError.nextSubpassFailed, u.painter, none, []⟩

/-! ### Characterization lemmas for `update_set` -/

/-- When the atlas version equals the cached version, `update_set` is a
no-op: it succeeds, changes nothing, and performs no GPU operation. -/
theorem update_set_noop (env : GpuEnv) (p : Painter) (t : Texture)
    (h : t.version = p.texture_version) :
    update_set env p t = ⟨Except.ok (), p, []⟩ := by
  unfold update_set
  rw [if_pos h]

/-- After any `update_set` call — success, failure, or no-op — the cached
version equals the version of the texture that was presented. -/
theorem update_set_texture_version (env : GpuEnv) (p : Painter) (t : Texture) :
    (update_set env p t).painter.texture_version = t.version := by
  unfold update_set
  split
  · next h => exact h.symm
  · split
    · rfl
    · split
      · split
        · split
          · rfl
          · rfl
        · rfl
      · rfl

/-- The descriptor set built by a successful rebuild for a given atlas. -/
def rebuiltSet (t : Texture) : DescriptorSet :=
  ⟨⟨⟨t.width, t.height, imageData t.pixels⟩⟩⟩

/-- With every graphics-API call succeeding and a changed atlas version,
`update_set` rebuilds: it succeeds, caches the new version and the newly
built descriptor set, and performs the four GPU operations. -/
theorem update_set_rebuild (p : Painter) (t : Texture)
    (h : t.version ≠ p.texture_version) :
    update_set GpuEnv.allOk p t =
      ⟨Except.ok (), ⟨t.version, some (rebuiltSet t)⟩,
        [GpuOp.allocImage t.width t.height (imageData t.pixels), GpuOp.flushUpload,
          GpuOp.buildImageView, GpuOp.buildDescriptorSet]⟩ := by
  unfold update_set create_font_texture
  rw [if_neg h]
  rfl

/-- A concrete environment in which the image allocation fails. -/
def envImageFail : GpuEnv := { GpuEnv.allOk with imageOk := false }

/-- A concrete one-pixel atlas at version 1. -/
def texA : Texture := ⟨1, 1, 1, [7]⟩

/-- C1 (counterexample): with the image allocation failing, `update_set`
on a fresh painter and a version-1 atlas returns the error, yet the cached
texture version counter has changed — the claim that failure leaves both
cached fields at their previous values is false on the code. -/
theorem update_set_failure_mutates_version_counterexample :
    (update_set envImageFail Painter.new texA).result =
      Except.error (UpdateSetError.createTextureFailed CreateTextureError.createImageFailed) ∧
    (update_set envImageFail Painter.new texA).painter.texture_version ≠
      Painter.new.texture_version := by
  decide

/-- C1 (amended): when any fallible step of `update_set` fails, the call
returns the error and leaves the cached binding set unchanged, but the
cached texture version counter has already been overwritten with the new
atlas version (the source assigns it before the fallible steps), so after
a failed call the cached version no longer equals the atlas version used
to build the current binding. -/
theorem update_set_error_state (env : GpuEnv) (p : Painter) (t : Texture)
    (e : UpdateSetError)
    (h : (update_set env p t).result = Except.error e) :
    (update_set env p t).painter.set = p.set ∧
    (update_set env p t).painter.texture_version = t.version ∧
    t.version ≠ p.texture_version := by
  unfold update_set at h ⊢
  by_cases hv : t.version = p.texture_version
  · rw [if_pos hv] at h
    cases h
  · rw [if_neg hv] at h ⊢
    generalize hc : create_font_texture env t = cf at h ⊢
    obtain ⟨r, ops⟩ := cf
    cases r with
    | error e2 => exact ⟨rfl, rfl, hv⟩
    | ok img =>
      cases h1 : env.viewOk <;> cases h2 : env.addImageOk <;> cases h3 : env.buildOk <;>
        rw [h1, h2, h3] at h <;> simp_all

/-- C1 (witness for the amended theorem), at the concrete failing input. -/
theorem update_set_error_state_witness :
    (update_set envImageFail Painter.new texA).painter.set = Painter.new.set ∧
    (update_set envImageFail Painter.new texA).painter.texture_version = texA.version ∧
    texA.version ≠ Painter.new.texture_version :=
  update_set_error_state envImageFail Painter.new texA
    (UpdateSetError.createTextureFailed CreateTextureError.createImageFailed) (by decide)

/-- C6: when the presented atlas version equals the cached one, the
texture-update step succeeds, changes no state, and performs no GPU
operation; consequently any second call with the same atlas (whatever the
first call did) performs no GPU operation, succeeds, and changes nothing. -/
theorem update_set_idempotent (env : GpuEnv) (p : Painter) (t : Texture) :
    (t.version = p.texture_version → update_set env p t = ⟨Except.ok (), p, []⟩) ∧
    (update_set env (update_set env p t).painter t).ops = [] ∧
    (update_set env (update_set env p t).painter t).result = Except.ok () ∧
    (update_set env (update_set env p t).painter t).painter = (update_set env p t).painter := by
  have h2 := update_set_noop env (update_set env p t).painter t
    (update_set_texture_version env p t).symm
  exact ⟨fun h => update_set_noop env p t h, by rw [h2], by rw [h2], by rw [h2]⟩

/-- A concrete empty atlas at version 5 and a painter already caching 5. -/
def texV5 : Texture := ⟨5, 0, 0, []⟩

/-- A painter whose cached version is 5 with no binding. -/
def painterV5 : Painter := ⟨5, none⟩

/-- C6 (witness): at a concrete matching version the step is a no-op. -/
theorem update_set_idempotent_witness :
    update_set GpuEnv.allOk painterV5 texV5 = ⟨Except.ok (), painterV5, []⟩ :=
  (update_set_idempotent GpuEnv.allOk painterV5 texV5).1 rfl

/-- C2: the (spec-modelled) public `update_textures` step performs the
texture-update work and, on success, returns `changed` — the signal that
GPU-side waiting is required before reuse — exactly when the presented
atlas version differs from the cached version this frame. -/
theorem update_textures_signal (env : GpuEnv) (p : Painter) (t : Texture)
    (r : UpdateTexturesResult)
    (h : (update_textures env p t).1 = Except.ok r) :
    (r = UpdateTexturesResult.changed ↔ t.version ≠ p.texture_version) ∧
    (update_textures env p t).2.1 = (update_set env p t).painter := by
  unfold update_textures at h ⊢
  dsimp only at h ⊢
  rcases hr : (update_set env p t).result with e | u
  · rw [hr] at h
    exact Except.noConfusion h
  · rw [hr] at h
    refine ⟨?_, rfl⟩
    by_cases hv : t.version = p.texture_version
    · rw [if_pos hv] at h
      injection h with h
      subst h
      simp [hv]
    · rw [if_neg hv] at h
      injection h with h
      subst h
      simp [hv]

/-- C2 (witness): a fresh painter observing a version-1 atlas gets the
`changed` signal, and indeed the version changed. -/
theorem update_textures_signal_witness :
    (UpdateTexturesResult.changed = UpdateTexturesResult.changed ↔
      texA.version ≠ Painter.new.texture_version) ∧
    (update_textures GpuEnv.allOk Painter.new texA).2.1 =
      (update_set GpuEnv.allOk Painter.new texA).painter :=
  update_textures_signal GpuEnv.allOk Painter.new texA UpdateTexturesResult.changed (by decide)

/-! ### Closed form of the packing loop -/

/-- The converted vertices one retained mesh contributes to the frame's
vertex buffer. -/
def meshVerts (cm : ClippedMesh) : List Vertex :=
  cm.mesh.vertices.map vertexFromEpaint

/-- The indices one retained mesh contributes (copied verbatim). -/
def meshIdx (cm : ClippedMesh) : List Nat :=
  cm.mesh.indices

/-- Total vertex count contributed by the first `i` meshes of `rs`. -/
def vertsBefore (rs : List ClippedMesh) (i : Nat) : Nat :=
  ((rs.take i).map fun cm => cm.mesh.vertices.length).sum

/-- Total index count contributed by the first `i` meshes of `rs`. -/
def idxBefore (rs : List ClippedMesh) (i : Nat) : Nat :=
  ((rs.take i).map fun cm => cm.mesh.indices.length).sum

theorem vertsBefore_zero (rs : List ClippedMesh) : vertsBefore rs 0 = 0 := rfl

theorem idxBefore_zero (rs : List ClippedMesh) : idxBefore rs 0 = 0 := rfl

theorem vertsBefore_cons_succ (cm : ClippedMesh) (rs : List ClippedMesh) (i : Nat) :
    vertsBefore (cm :: rs) (i + 1) = cm.mesh.vertices.length + vertsBefore rs i := by
  simp [vertsBefore, List.take_succ_cons]

theorem idxBefore_cons_succ (cm : ClippedMesh) (rs : List ClippedMesh) (i : Nat) :
    idxBefore (cm :: rs) (i + 1) = cm.mesh.indices.length + idxBefore rs i := by
  simp [idxBefore, List.take_succ_cons]

/-- Skipped meshes contribute nothing, so folding the loop over all meshes
equals folding it over the retained ones only. -/
theorem foldl_packStep_retained (cms : List ClippedMesh) (s : PackState) :
    cms.foldl packStep s = (retained cms).foldl packStep s := by
  induction cms generalizing s with
  | nil => rfl
  | cons cm rest ih =>
    by_cases h : isEmptyMesh cm
    · have hs : packStep s cm = s := by unfold packStep; rw [if_pos h]
      have hr : retained (cm :: rest) = retained rest := by
        simp [retained, List.filter_cons, h]
      rw [List.foldl_cons, hs, hr, ih]
    · have hr : retained (cm :: rest) = cm :: retained rest := by
        simp [retained, List.filter_cons, h]
      rw [List.foldl_cons, hr, List.foldl_cons, ih]

/-- Closed form of the packing loop over a list of retained meshes: the
four accumulators grow by the concatenated vertices, the concatenated
indices, the clip rects in order, and the partial-sum offset pairs. -/
theorem foldl_packStep_closed (rs : List ClippedMesh) (s : PackState)
    (h : ∀ cm ∈ rs, ¬ isEmptyMesh cm) :
    rs.foldl packStep s =
      ⟨s.verts ++ rs.flatMap meshVerts,
       s.indices ++ rs.flatMap meshIdx,
       s.clips ++ rs.map ClippedMesh.clip,
       s.offsets ++ (List.range rs.length).map fun i =>
         (s.verts.length + vertsBefore rs i, s.indices.length + idxBefore rs i)⟩ := by
  induction rs generalizing s with
  | nil => cases s; simp
  | cons cm rest ih =>
    have hk : ¬ isEmptyMesh cm := h cm (by simp)
    have hrest : ∀ x ∈ rest, ¬ isEmptyMesh x := fun x hx => h x (by simp [hx])
    have hs : packStep s cm =
        ⟨s.verts ++ meshVerts cm, s.indices ++ meshIdx cm,
          s.clips ++ [cm.clip], s.offsets ++ [(s.verts.length, s.indices.length)]⟩ := by
      unfold packStep
      rw [if_neg hk]
      rfl
    rw [List.foldl_cons, hs, ih _ hrest]
    congr 1
    · simp [List.flatMap_cons, List.append_assoc]
    · simp [List.flatMap_cons, List.append_assoc]
    · simp [List.append_assoc]
    · simp [List.range_succ_eq_map, List.map_map, Function.comp, meshVerts, meshIdx,
        vertsBefore_cons_succ, idxBefore_cons_succ, vertsBefore_zero, idxBefore_zero,
        List.append_assoc, Nat.add_assoc]

/-- Everything the loop retains is a non-empty mesh. -/
theorem not_isEmptyMesh_of_mem_retained {cms : List ClippedMesh} {cm : ClippedMesh}
    (h : cm ∈ retained cms) : ¬ isEmptyMesh cm := by
  unfold retained at h
  exact of_decide_eq_true (List.mem_filter.mp h).2

/-- The first-`length` partial vertex sum is the length of the whole
concatenated vertex list. -/
theorem vertsBefore_length (rs : List ClippedMesh) :
    vertsBefore rs rs.length = (rs.flatMap meshVerts).length := by
  simp [vertsBefore, List.take_length, List.length_flatMap, meshVerts, Function.comp_def]

/-- The first-`length` partial index sum is the length of the whole
concatenated index list. -/
theorem idxBefore_length (rs : List ClippedMesh) :
    idxBefore rs rs.length = (rs.flatMap meshIdx).length := by
  simp [idxBefore, List.take_length, List.length_flatMap, meshIdx, Function.comp_def]

/-- Full closed form of the packing phase: concatenated vertices and
indices of the retained meshes, their clip rects in order, and the
`length + 1` partial-sum offset boundary pairs. -/
theorem packMeshes_eq (cms : List ClippedMesh) :
    packMeshes cms =
      ⟨(retained cms).flatMap meshVerts,
       (retained cms).flatMap meshIdx,
       (retained cms).map ClippedMesh.clip,
       (List.range ((retained cms).length + 1)).map fun i =>
         (vertsBefore (retained cms) i, idxBefore (retained cms) i)⟩ := by
  unfold packMeshes
  rw [foldl_packStep_retained, foldl_packStep_closed _ packInit
    (fun cm hcm => not_isEmptyMesh_of_mem_retained hcm)]
  dsimp only [packInit]
  congr 1
  all_goals simp [List.length_flatMap]
  rw [List.range_succ, List.map_append]
  simp [vertsBefore_length, idxBefore_length, List.length_flatMap]

/-- The partial vertex sums are monotone. -/
theorem vertsBefore_mono (rs : List ClippedMesh) {i j : Nat} (hij : i ≤ j) :
    vertsBefore rs i ≤ vertsBefore rs j := by
  unfold vertsBefore
  have h1 : rs.take i = (rs.take j).take i := by
    rw [List.take_take, Nat.min_eq_left hij]
  obtain ⟨t, ht⟩ := List.take_prefix i (rs.take j)
  rw [h1]
  conv_rhs => rw [← ht, List.map_append, List.sum_append]
  exact Nat.le_add_right _ _

/-- The partial index sums are monotone. -/
theorem idxBefore_mono (rs : List ClippedMesh) {i j : Nat} (hij : i ≤ j) :
    idxBefore rs i ≤ idxBefore rs j := by
  unfold idxBefore
  have h1 : rs.take i = (rs.take j).take i := by
    rw [List.take_take, Nat.min_eq_left hij]
  obtain ⟨t, ht⟩ := List.take_prefix i (rs.take j)
  rw [h1]
  conv_rhs => rw [← ht, List.map_append, List.sum_append]
  exact Nat.le_add_right _ _

/-- Componentwise order on offset boundary pairs. -/
def offsetsLe (a b : Nat × Nat) : Prop := a.1 ≤ b.1 ∧ a.2 ≤ b.2

/-- C3: the concatenated vertex list's total length is the sum of the
retained meshes' vertex counts, the concatenated index list's total length
is the sum of their index counts, and the recorded
`(vertex_offset, index_offset)` boundary pairs are monotonically
non-decreasing in both components. -/
theorem pack_lengths_and_monotone_offsets (cms : List ClippedMesh) :
    (packMeshes cms).verts.length =
      ((retained cms).map fun cm => cm.mesh.vertices.length).sum ∧
    (packMeshes cms).indices.length =
      ((retained cms).map fun cm => cm.mesh.indices.length).sum ∧
    (packMeshes cms).offsets.Pairwise offsetsLe := by
  rw [packMeshes_eq]
  refine ⟨?_, ?_, ?_⟩
  · simp [List.length_flatMap, meshVerts, Function.comp_def]
  · simp [List.length_flatMap, meshIdx, Function.comp_def]
  · rw [List.pairwise_map]
    refine (List.pairwise_lt_range _).imp ?_
    intro a b hab
    exact ⟨vertsBefore_mono _ (Nat.le_of_lt hab), idxBefore_mono _ (Nat.le_of_lt hab)⟩

/-- A concrete vertex for the C5 scenario. -/
def vertC5 : EpaintVertex := ⟨⟨0, 0⟩, ⟨0, 0⟩, ⟨0, 0, 0, 255⟩⟩

/-- The C5 scenario's first mesh: no vertices, so it must be skipped. -/
def emptyMeshC5 : ClippedMesh := ⟨⟨⟨0, 0⟩, ⟨1, 1⟩⟩, ⟨[], [0, 1, 2]⟩⟩

/-- The C5 scenario's second mesh: 3 vertices and 3 indices. -/
def triMeshC5 : ClippedMesh := ⟨⟨⟨0, 0⟩, ⟨10, 10⟩⟩, ⟨[vertC5, vertC5, vertC5], [0, 1, 2]⟩⟩

/-- C5: a mesh with zero vertices or zero indices is skipped entirely — the
loop step records nothing for it and raises no error — and in the two-mesh
scenario (first empty, second 3 vertices / 3 indices) exactly the second
mesh is retained, one clip rect is recorded, the offset boundaries are
`[(0,0), (3,3)]`, and the range list has exactly one entry starting at
vertex offset 0 and index offset 0. -/
theorem skip_empty_meshes (s : PackState) (cm : ClippedMesh)
    (h : cm.mesh.vertices.length = 0 ∨ cm.mesh.indices.length = 0) :
    packStep s cm = s ∧
    retained [emptyMeshC5, triMeshC5] = [triMeshC5] ∧
    (packMeshes [emptyMeshC5, triMeshC5]).clips = [triMeshC5.clip] ∧
    (packMeshes [emptyMeshC5, triMeshC5]).offsets = [(0, 0), (3, 3)] ∧
    (drawCallsOf (packMeshes [emptyMeshC5, triMeshC5])).length = 1 ∧
    (drawCallsOf (packMeshes [emptyMeshC5, triMeshC5])).getD 0 defaultDrawCall =
      ⟨scissorOf triMeshC5.clip, (0, 3), (0, 3)⟩ := by
  have h2 : isEmptyMesh cm := h
  refine ⟨?_, by rfl, by rfl, by rfl, by rfl, by rfl⟩
  unfold packStep
  rw [if_pos h2]

/-- C5 (witness): the skip applied to the scenario's empty mesh. -/
theorem skip_empty_meshes_witness :
    packStep packInit emptyMeshC5 = packInit ∧
    retained [emptyMeshC5, triMeshC5] = [triMeshC5] ∧
    (packMeshes [emptyMeshC5, triMeshC5]).clips = [triMeshC5.clip] ∧
    (packMeshes [emptyMeshC5, triMeshC5]).offsets = [(0, 0), (3, 3)] ∧
    (drawCallsOf (packMeshes [emptyMeshC5, triMeshC5])).length = 1 ∧
    (drawCallsOf (packMeshes [emptyMeshC5, triMeshC5])).getD 0 defaultDrawCall =
      ⟨scissorOf triMeshC5.clip, (0, 3), (0, 3)⟩ :=
  skip_empty_meshes packInit emptyMeshC5 (Or.inl rfl)

/-- Each normalized 8-bit channel lies in the unit interval. -/
theorem channelBounds (c : Fin 256) :
    0 ≤ (c.val : ℚ) / 255 ∧ (c.val : ℚ) / 255 ≤ 1 := by
  constructor
  · positivity
  · rw [div_le_one (by norm_num)]
    exact_mod_cast Nat.le_of_lt_succ c.isLt

/-- C9: the Vertex Converter is a total function (a plain Lean function
with no error value): position and UV are copied through unchanged, and
each output color channel equals the corresponding 8-bit input channel
divided by 255, a value lying in [0, 1]. -/
theorem vertex_converter_normalizes (v : EpaintVertex) :
    (vertexFromEpaint v).pos = (v.pos.x, v.pos.y) ∧
    (vertexFromEpaint v).uv = (v.uv.x, v.uv.y) ∧
    (vertexFromEpaint v).color =
      ((v.color.r.val : ℚ) / 255, (v.color.g.val : ℚ) / 255,
       (v.color.b.val : ℚ) / 255, (v.color.a.val : ℚ) / 255) ∧
    (0 ≤ (vertexFromEpaint v).color.1 ∧ (vertexFromEpaint v).color.1 ≤ 1) ∧
    (0 ≤ (vertexFromEpaint v).color.2.1 ∧ (vertexFromEpaint v).color.2.1 ≤ 1) ∧
    (0 ≤ (vertexFromEpaint v).color.2.2.1 ∧ (vertexFromEpaint v).color.2.2.1 ≤ 1) ∧
    (0 ≤ (vertexFromEpaint v).color.2.2.2 ∧ (vertexFromEpaint v).color.2.2.2 ≤ 1) :=
  ⟨rfl, rfl, rfl, channelBounds v.color.r, channelBounds v.color.g,
    channelBounds v.color.b, channelBounds v.color.a⟩

/-- The C8 scenario's atlas: version 1, 2×2 pixels `[10, 20, 30, 40]`. -/
def tex2x2 : Texture := ⟨1, 2, 2, [10, 20, 30, 40]⟩

/-- C8 (counterexample): the expanded image for the 2×2 scenario buffer is
16 bytes (4 channels per pixel), not the 8×8 = 64 bytes the spec's
"8×8-byte image" figure states. -/
theorem font_texture_size_counterexample :
    (imageData tex2x2.pixels).length = 16 ∧
    (imageData tex2x2.pixels).length ≠ 8 * 8 := by
  decide

/-- The expansion quadruples the byte count. -/
theorem imageData_length (pixels : List (Fin 256)) :
    (imageData pixels).length = 4 * pixels.length := by
  induction pixels with
  | nil => rfl
  | cons p ps ih =>
    simp [imageData, List.flatMap_cons] at ih ⊢
    omega

/-- Byte `4 * i + j` of the expansion is pixel `i`: every source pixel is
replicated across its 4 channels. -/
theorem imageData_getD (pixels : List (Fin 256)) (i j : Nat)
    (hi : i < pixels.length) (hj : j < 4) :
    (imageData pixels).getD (4 * i + j) 0 = pixels.getD i 0 := by
  induction pixels generalizing i with
  | nil => cases hi
  | cons p ps ih =>
    cases i with
    | zero => interval_cases j <;> rfl
    | succ k =>
      have h4 : 4 * (k + 1) + j = (((4 * k + j) + 1) + 1 + 1) + 1 := by ring
      have hc : imageData (p :: ps) = p :: p :: p :: p :: imageData ps := rfl
      rw [h4, hc]
      simp only [List.getD_cons_succ]
      exact ih k (Nat.lt_of_succ_lt_succ hi)

/-- C8 (amended): on a version change the uploader expands each
single-channel pixel into 4 identical channels, giving a width×height
4-channel image whose byte size is `4 × width × height`; for the 2×2
scenario buffer `[10, 20, 30, 40]` the uploaded bytes are pixel 0 as
`(10,10,10,10)`, pixel 1 as `(20,20,20,20)`, and so on — 16 bytes in all,
not the spec's stated 8×8 = 64. -/
theorem font_texture_expansion (t : Texture) (i j : Nat)
    (hi : i < t.pixels.length) (hj : j < 4) :
    (imageData t.pixels).length = 4 * t.pixels.length ∧
    (imageData t.pixels).getD (4 * i + j) 0 = t.pixels.getD i 0 ∧
    (create_font_texture GpuEnv.allOk tex2x2).1 =
      Except.ok ⟨2, 2, [10, 10, 10, 10, 20, 20, 20, 20,
        30, 30, 30, 30, 40, 40, 40, 40]⟩ ∧
    (create_font_texture GpuEnv.allOk tex2x2).2 =
      [GpuOp.allocImage 2 2 [10, 10, 10, 10, 20, 20, 20, 20,
        30, 30, 30, 30, 40, 40, 40, 40], GpuOp.flushUpload] :=
  ⟨imageData_length t.pixels, imageData_getD t.pixels i j hi hj, by decide, by decide⟩

/-- C8 (witness for the amended theorem) at pixel 0, channel 0 of the
scenario buffer. -/
theorem font_texture_expansion_witness :
    (imageData tex2x2.pixels).length = 4 * tex2x2.pixels.length ∧
    (imageData tex2x2.pixels).getD (4 * 0 + 0) 0 = tex2x2.pixels.getD 0 0 ∧
    (create_font_texture GpuEnv.allOk tex2x2).1 =
      Except.ok ⟨2, 2, [10, 10, 10, 10, 20, 20, 20, 20,
        30, 30, 30, 30, 40, 40, 40, 40]⟩ ∧
    (create_font_texture GpuEnv.allOk tex2x2).2 =
      [GpuOp.allocImage 2 2 [10, 10, 10, 10, 20, 20, 20, 20,
        30, 30, 30, 30, 40, 40, 40, 40], GpuOp.flushUpload] :=
  font_texture_expansion tex2x2 0 0 (by decide) (by decide)

/-! ### Unfolding lemmas for `draw` -/

/-- When the texture update succeeds, the subpass advances, and nothing was
retained, `draw` returns early with success: no buffers, no draws. -/
theorem draw_eq_of_empty (env : GpuEnv) (p : Painter) (t : Texture)
    (cms : List ClippedMesh)
    (hupd : (update_set env p t).result = Except.ok ())
    (hsub : env.subpassOk = true)
    (hzero : (packMeshes cms).clips.length = 0) :
    draw env p t cms =
      ⟨DrawOutcome.success, (update_set env p t).painter, none, []⟩ := by
  unfold draw
  dsimp only
  rw [hupd]
  dsimp only
  rw [hsub, if_pos rfl, if_pos hzero]

/-- The fully successful `draw` path: buffers are allocated from the packed
data and the scissored draw calls are issued. -/
theorem draw_eq_of_ok (env : GpuEnv) (p : Painter) (t : Texture)
    (cms : List ClippedMesh) (ds : DescriptorSet)
    (hupd : (update_set env p t).result = Except.ok ())
    (hset : (update_set env p t).painter.set = some ds)
    (hsub : env.subpassOk = true)
    (hbuf : env.buffersOk = true)
    (hdraw : env.drawOk = true)
    (hne : (packMeshes cms).clips.length ≠ 0) :
    draw env p t cms =
      ⟨DrawOutcome.success, (update_set env p t).painter,
        some ((packMeshes cms).verts, (packMeshes cms).indices),
        drawCallsOf (packMeshes cms)⟩ := by
  unfold draw
  dsimp only
  rw [hupd]
  dsimp only
  rw [hsub, if_pos rfl, if_neg hne]
  unfold create_buffers
  rw [hbuf, if_pos rfl]
  dsimp only
  rw [hset]
  dsimp only
  rw [hdraw, if_pos rfl]

/-- The panic path: a retained mesh exists but no descriptor set is cached,
so the unchecked `unwrap` on the cached set panics inside the draw loop. -/
theorem draw_eq_of_none (env : GpuEnv) (p : Painter) (t : Texture)
    (cms : List ClippedMesh)
    (hupd : (update_set env p t).result = Except.ok ())
    (hset : (update_set env p t).painter.set = none)
    (hsub : env.subpassOk = true)
    (hbuf : env.buffersOk = true)
    (hne : (packMeshes cms).clips.length ≠ 0) :
    draw env p t cms =
      ⟨DrawOutcome.panicked, (update_set env p t).painter,
        some ((packMeshes cms).verts, (packMeshes cms).indices), []⟩ := by
  unfold draw
  dsimp only
  rw [hupd]
  dsimp only
  rw [hsub, if_pos rfl, if_neg hne]
  unfold create_buffers
  rw [hbuf, if_pos rfl]
  dsimp only
  rw [hset]

/-- Placeholder clipped mesh for stating indexed properties with `getD`. -/
def defaultClippedMesh : ClippedMesh := ⟨defaultRect, ⟨[], []⟩⟩

/-- `getD` on a map over a range, inside bounds, evaluates the function. -/
theorem getD_map_range {α : Type} (f : Nat → α) (m i : Nat) (d : α) (hi : i < m) :
    ((List.range m).map f).getD i d = f i := by
  rw [List.getD_eq_getElem _ _ (by simpa using hi), List.getElem_map, List.getElem_range]

/-- `getD` on the mapped clip rects, inside bounds, is the clip of the
`getD` mesh. -/
theorem getD_map_clip (rs : List ClippedMesh) (i : Nat) (hi : i < rs.length) :
    (rs.map ClippedMesh.clip).getD i defaultRect = (rs.getD i defaultClippedMesh).clip := by
  rw [List.getD_eq_getElem _ _ (by simpa using hi), List.getElem_map,
    List.getD_eq_getElem _ _ hi]

/-- The draw calls produced from the packed state, in closed form: one per
retained mesh, in order, scissored by that mesh's clip rect and sliced by
the partial-sum vertex/index ranges. -/
theorem drawCallsOf_packMeshes (cms : List ClippedMesh) :
    (drawCallsOf (packMeshes cms)).length = (retained cms).length ∧
    ∀ i, i < (retained cms).length →
      (drawCallsOf (packMeshes cms)).getD i defaultDrawCall =
        ⟨scissorOf ((retained cms).getD i defaultClippedMesh).clip,
         (vertsBefore (retained cms) i, vertsBefore (retained cms) (i + 1)),
         (idxBefore (retained cms) i, idxBefore (retained cms) (i + 1))⟩ := by
  rw [packMeshes_eq]
  constructor
  · simp [drawCallsOf]
  · intro i hi
    simp only [drawCallsOf]
    rw [getD_map_range _ _ _ _ (by simpa using hi)]
    rw [getD_map_range _ _ _ _ (show i < (retained cms).length + 1 by omega),
      getD_map_range _ _ _ _ (show i + 1 < (retained cms).length + 1 by omega),
      getD_map_clip _ _ hi]

/-- The empty atlas at version 0 (the version a fresh painter caches). -/
def texV0 : Texture := ⟨0, 0, 0, []⟩

/-- C4: when the frame's clipped-mesh list contains only meshes with zero
vertices or zero indices (including the empty list), a `draw` whose
texture-update and subpass steps succeed allocates no GPU vertex or index
buffers, issues no indexed draw calls, and returns success. -/
theorem draw_empty_frame (env : GpuEnv) (p : Painter) (t : Texture)
    (cms : List ClippedMesh)
    (hupd : (update_set env p t).result = Except.ok ())
    (hsub : env.subpassOk = true)
    (hall : ∀ cm ∈ cms, cm.mesh.vertices.length = 0 ∨ cm.mesh.indices.length = 0) :
    (draw env p t cms).outcome = DrawOutcome.success ∧
    (draw env p t cms).buffers = none ∧
    (draw env p t cms).draws = [] := by
  have hret : retained cms = [] := by
    unfold retained
    rw [List.filter_eq_nil_iff]
    intro cm hcm
    have hcm2 : isEmptyMesh cm := hall cm hcm
    simp [hcm2]
  have hzero : (packMeshes cms).clips.length = 0 := by
    rw [packMeshes_eq, hret]
    rfl
  rw [draw_eq_of_empty env p t cms hupd hsub hzero]
  exact ⟨rfl, rfl, rfl⟩

/-- C4 (witness): a fresh painter, a version-0 atlas, and one empty mesh. -/
theorem draw_empty_frame_witness :
    (draw GpuEnv.allOk Painter.new texV0 [emptyMeshC5]).outcome = DrawOutcome.success ∧
    (draw GpuEnv.allOk Painter.new texV0 [emptyMeshC5]).buffers = none ∧
    (draw GpuEnv.allOk Painter.new texV0 [emptyMeshC5]).draws = [] :=
  draw_empty_frame GpuEnv.allOk Painter.new texV0 [emptyMeshC5] (by decide) rfl (by decide)

/-- C7: on the fully successful path, `draw` issues exactly one indexed
draw call per retained mesh, in mesh emission order; the `i`-th call's
scissor is derived from the `i`-th retained mesh's clip rectangle (origin
from the rect's minimum corner, dimensions from its width and height, cast
to pixel-space integers) and its vertex/index buffer slices are exactly
that mesh's recorded ranges. -/
theorem draw_emitter_per_mesh (env : GpuEnv) (p : Painter) (t : Texture)
    (cms : List ClippedMesh) (ds : DescriptorSet)
    (hupd : (update_set env p t).result = Except.ok ())
    (hset : (update_set env p t).painter.set = some ds)
    (hsub : env.subpassOk = true)
    (hbuf : env.buffersOk = true)
    (hdraw : env.drawOk = true) :
    (draw env p t cms).outcome = DrawOutcome.success ∧
    (draw env p t cms).draws.length = (retained cms).length ∧
    ∀ i, i < (retained cms).length →
      (draw env p t cms).draws.getD i defaultDrawCall =
        ⟨scissorOf ((retained cms).getD i defaultClippedMesh).clip,
         (vertsBefore (retained cms) i, vertsBefore (retained cms) (i + 1)),
         (idxBefore (retained cms) i, idxBefore (retained cms) (i + 1))⟩ := by
  by_cases hn : (packMeshes cms).clips.length = 0
  · rw [draw_eq_of_empty env p t cms hupd hsub hn]
    have hr0 : (retained cms).length = 0 := by
      rw [packMeshes_eq] at hn
      simpa using hn
    refine ⟨rfl, by simp [hr0], ?_⟩
    intro i hi
    rw [hr0] at hi
    exact absurd hi (Nat.not_lt_zero i)
  · rw [draw_eq_of_ok env p t cms ds hupd hset hsub hbuf hdraw hn]
    exact ⟨rfl, (drawCallsOf_packMeshes cms).1, (drawCallsOf_packMeshes cms).2⟩

/-- The C7 scenario's clip rect: origin (0,0), extent 50×50. -/
def rect50 : Rect := ⟨⟨0, 0⟩, ⟨50, 50⟩⟩

/-- The C7 scenario's mesh: 4 vertices and 6 indices under `rect50`. -/
def meshC7 : ClippedMesh :=
  ⟨rect50, ⟨[vertC5, vertC5, vertC5, vertC5], [0, 1, 2, 0, 2, 3]⟩⟩

/-- A painter that has already synced texture version 1. -/
def painterC7 : Painter := ⟨1, some (rebuiltSet texA)⟩

/-- An atlas matching the already-synced version 1. -/
def texC7 : Texture := ⟨1, 0, 0, []⟩

/-- The scissor built for the (0,0,50,50) clip rect. -/
theorem scissorOf_rect50 : scissorOf rect50 = ⟨0, 0, 50, 50⟩ := by
  simp [scissorOf, rect50, Rect.width, Rect.height, castToI32, castToU32, truncQ]

/-- C7 (witness): the scenario mesh — 4 vertices, 6 indices, clip rect
(0,0,50,50) — yields exactly one draw, with scissor origin (0,0),
dimensions (50,50), vertex slice [0,4) and index slice [0,6). -/
theorem draw_emitter_per_mesh_witness :
    (draw GpuEnv.allOk painterC7 texC7 [meshC7]).outcome = DrawOutcome.success ∧
    (draw GpuEnv.allOk painterC7 texC7 [meshC7]).draws.length = 1 ∧
    (draw GpuEnv.allOk painterC7 texC7 [meshC7]).draws.getD 0 defaultDrawCall =
      ⟨⟨0, 0, 50, 50⟩, (0, 4), (0, 6)⟩ := by
  have h := draw_emitter_per_mesh GpuEnv.allOk painterC7 texC7 [meshC7]
    (rebuiltSet texA) rfl rfl rfl rfl rfl
  refine ⟨h.1, ?_, ?_⟩
  · rw [h.2.1]
    decide
  · have h3 := h.2.2 0 (by decide)
    rw [h3, show ((retained [meshC7]).getD 0 defaultClippedMesh).clip = rect50 from rfl,
      scissorOf_rect50]
    decide

/-! ### The cached-set unwrap in `draw` (C10) -/

/-- A sequence of texture-update observations (each with every graphics-API
call succeeding), applied to a painter in order. -/
def observeAll (p : Painter) (ts : List Texture) : Painter :=
  ts.foldl (fun q u => (update_set GpuEnv.allOk q u).painter) p

/-- One all-succeeding observation either leaves the painter untouched or
caches the rebuilt set. -/
theorem observe_one (q : Painter) (u : Texture) :
    (update_set GpuEnv.allOk q u).painter =
      if u.version = q.texture_version then q
      else ⟨u.version, some (rebuiltSet u)⟩ := by
  by_cases h : u.version = q.texture_version
  · rw [update_set_noop _ _ _ h, if_pos h]
  · rw [update_set_rebuild _ _ h, if_neg h]

/-- Once a set is cached, further all-succeeding observations keep one. -/
theorem observeAll_preserves_isSome (ts : List Texture) (p : Painter)
    (h : p.set.isSome = true) : ((observeAll p ts).set).isSome = true := by
  induction ts generalizing p with
  | nil => exact h
  | cons u rest ih =>
    show ((observeAll ((update_set GpuEnv.allOk p u).painter) rest).set).isSome = true
    apply ih
    rw [observe_one]
    split
    · exact h
    · rfl

/-- If every observed atlas version is 0, a fresh painter never changes. -/
theorem observeAll_all_zero (ts : List Texture)
    (h : ∀ u ∈ ts, u.version = 0) : observeAll Painter.new ts = Painter.new := by
  induction ts with
  | nil => rfl
  | cons u rest ih =>
    have hu : u.version = Painter.new.texture_version := h u (by simp)
    show observeAll ((update_set GpuEnv.allOk Painter.new u).painter) rest = Painter.new
    rw [update_set_noop _ _ _ hu]
    exact ih fun w hw => h w (by simp [hw])

/-- If some observed atlas version is nonzero, the fresh painter ends up
with a cached set. -/
theorem observeAll_some_of_nonzero (ts : List Texture)
    (h : ∃ u ∈ ts, u.version ≠ 0) :
    ((observeAll Painter.new ts).set).isSome = true := by
  induction ts with
  | nil =>
    rcases h with ⟨u, hu, _⟩
    cases hu
  | cons u rest ih =>
    by_cases hu : u.version = 0
    · show ((observeAll ((update_set GpuEnv.allOk Painter.new u).painter) rest).set).isSome = true
      rw [update_set_noop _ _ _ (hu : u.version = Painter.new.texture_version)]
      apply ih
      rcases h with ⟨w, hw, hv⟩
      rcases List.mem_cons.mp hw with rfl | hmem
      · exact absurd hu hv
      · exact ⟨w, hmem, hv⟩
    · show ((observeAll ((update_set GpuEnv.allOk Painter.new u).painter) rest).set).isSome = true
      rw [update_set_rebuild Painter.new u hu]
      exact observeAll_preserves_isSome rest _ rfl

/-- A fresh painter after any observation sequence: either untouched, or a
set is cached. -/
theorem observeAll_new_invariant (ts : List Texture) :
    observeAll Painter.new ts = Painter.new ∨
      ((observeAll Painter.new ts).set).isSome = true := by
  by_cases hz : ∀ u ∈ ts, u.version = 0
  · exact Or.inl (observeAll_all_zero ts hz)
  · push_neg at hz
    exact Or.inr (observeAll_some_of_nonzero ts hz)

/-- C10: starting from `Painter::new` (cached version 0, no set) and any
sequence of all-succeeding texture-update observations, a `draw` that
retains at least one non-empty mesh hits the unchecked unwrap of the
cached set: it panics exactly when every observed atlas version — those of
the earlier updates and the one this `draw` observes — equals the initial
cached value 0; otherwise it succeeds, so it never returns a `DrawError`
on this path. -/
theorem draw_unwrap_panic_iff (ts : List Texture) (t : Texture)
    (cms : List ClippedMesh) (h : retained cms ≠ []) :
    ((draw GpuEnv.allOk (observeAll Painter.new ts) t cms).outcome = DrawOutcome.panicked ↔
      ((∀ u ∈ ts, u.version = 0) ∧ t.version = 0)) ∧
    ((draw GpuEnv.allOk (observeAll Painter.new ts) t cms).outcome = DrawOutcome.panicked ∨
      (draw GpuEnv.allOk (observeAll Painter.new ts) t cms).outcome = DrawOutcome.success) := by
  have hne : (packMeshes cms).clips.length ≠ 0 := by
    rw [packMeshes_eq]
    simpa using fun h0 => h (List.length_eq_zero.mp h0)
  have hupd : (update_set GpuEnv.allOk (observeAll Painter.new ts) t).result =
      Except.ok () := by
    by_cases hv : t.version = (observeAll Painter.new ts).texture_version
    · rw [update_set_noop _ _ _ hv]
    · rw [update_set_rebuild _ _ hv]
  by_cases hall : (∀ u ∈ ts, u.version = 0) ∧ t.version = 0
  · obtain ⟨hts, ht0⟩ := hall
    have ho2 : observeAll Painter.new ts = Painter.new := observeAll_all_zero ts hts
    have hv : t.version = (observeAll Painter.new ts).texture_version := by
      rw [ho2]
      exact ht0
    have hset : (update_set GpuEnv.allOk (observeAll Painter.new ts) t).painter.set =
        none := by
      rw [update_set_noop _ _ _ hv, ho2]
      rfl
    rw [draw_eq_of_none GpuEnv.allOk _ t cms hupd hset rfl rfl hne]
    exact ⟨iff_of_true rfl ⟨hts, ht0⟩, Or.inl rfl⟩
  · have hsome : ((update_set GpuEnv.allOk (observeAll Painter.new ts) t).painter.set).isSome
        = true := by
      by_cases hv : t.version = (observeAll Painter.new ts).texture_version
      · rw [update_set_noop _ _ _ hv]
        rcases observeAll_new_invariant ts with hinv | hinv
        · exfalso
          have hallzero : ∀ u ∈ ts, u.version = 0 := by
            by_contra hc
            push_neg at hc
            have hs := observeAll_some_of_nonzero ts hc
            rw [hinv] at hs
            cases hs
          have ht0 : t.version = 0 := by
            rw [hinv] at hv
            exact hv
          exact hall ⟨hallzero, ht0⟩
        · exact hinv
      · rw [update_set_rebuild _ _ hv]
        rfl
    obtain ⟨ds, hds⟩ := Option.isSome_iff_exists.mp hsome
    rw [draw_eq_of_ok GpuEnv.allOk _ t cms ds hupd hds rfl rfl rfl hne]
    exact ⟨⟨fun hc => DrawOutcome.noConfusion hc, fun hc => absurd hc hall⟩, Or.inr rfl⟩

/-- C10 (witness): no prior observations and a version-0 atlas at draw
time — the draw of one non-empty mesh panics. -/
theorem draw_unwrap_panic_iff_witness :
    ((draw GpuEnv.allOk (observeAll Painter.new []) texV0 [triMeshC5]).outcome =
        DrawOutcome.panicked ↔
      ((∀ u ∈ ([] : List Texture), u.version = 0) ∧ texV0.version = 0)) ∧
    ((draw GpuEnv.allOk (observeAll Painter.new []) texV0 [triMeshC5]).outcome =
        DrawOutcome.panicked ∨
      (draw GpuEnv.allOk (observeAll Painter.new []) texV0 [triMeshC5]).outcome =
        DrawOutcome.success) :=
  draw_unwrap_panic_iff [] texV0 [triMeshC5] (by decide)

end EguiVulkano
